import Mathlib

/-!
Shallow embedding of the TrademindAI frontend evaluation pipeline
(`src/frontend/src/pages/MissionControl.tsx` and
`src/frontend/src/pages/Dashboard.tsx`).

React component state is modelled as explicit records; the asynchronous
`fetch` calls are modelled by an outcome value (`FetchOutcome`): either the
promise rejects (transport failure) or a response with an `ok` flag and a
parsed body arrives.  The cosmetic `setInterval` progress timer is modelled
by iterating a `tick` function on the panel state.  Toast notifications are
returned as an explicit list.
-/

namespace TrademindAI

/-! ### Data model (the TypeScript interfaces of MissionControl.tsx) -/

/-- `interface TradePlan` of MissionControl.tsx.  Monetary cents fields are
integers, fractional fields are rationals. -/
structure TradePlan where
  market_id : String
  event_ticker : String
  title : String
  category : String
  side : String
  entry_price : Int
  exit_price : Int
  stop_loss : Int
  potential_profit_cents : Int
  potential_loss_cents : Int
  risk_reward_ratio : ℚ
  expiry_time : Option String
  hours_to_expiry : ℚ
  is_0dte : Bool
  fee_per_contract : Int
  net_profit_after_fees : Int
  settlement_source : String
  implied_win_rate : ℚ
  suggested_contracts : Int
  max_risk_dollars : ℚ
  deriving DecidableEq, Repr

/-- `interface ThoughtStep` of MissionControl.tsx. -/
structure ThoughtStep where
  step_number : Nat
  thought : String
  timestamp : String
  search_query : Option String
  deriving DecidableEq, Repr

/-- The TypeScript literal union `"EXECUTE" | "SKIP" | "WAIT"`. -/
inductive Recommendation where
  | EXECUTE | SKIP | WAIT
  deriving DecidableEq, Repr

/-- The TypeScript literal union `"HIGH" | "MEDIUM" | "LOW"`. -/
inductive Confidence where
  | HIGH | MEDIUM | LOW
  deriving DecidableEq, Repr

/-- `interface Strategy1VerifiedTrade` of MissionControl.tsx. -/
structure Strategy1VerifiedTrade where
  trade : TradePlan
  source_name : String
  source_url : String
  source_data : String
  kalshi_rule : String
  current_value : Option String
  threshold : Option String
  distance_to_threshold : Option String
  ai_true_probability : ℚ
  market_implied_probability : ℚ
  edge : ℚ
  recommendation : Recommendation
  confidence : Confidence
  reasoning : String
  risk_factors : List String
  time_sensitivity : String
  adjusted_contracts : Int
  adjusted_risk_dollars : ℚ
  thought_chain : Option (List ThoughtStep)
  reasoning_audit : Option String
  web_searches_performed : Option Nat
  deriving DecidableEq, Repr

/-- `interface Strategy1VerifyResponse` of MissionControl.tsx. -/
structure Strategy1VerifyResponse where
  scan_time : String
  total_scanned : Nat
  top_opportunities : List Strategy1VerifiedTrade
  summary : String
  deriving DecidableEq, Repr

/-- `interface TimelineStep` (the icon field is dropped: icons carry no
observable data). -/
structure TimelineStep where
  id : String
  label : String
  deriving DecidableEq, Repr

/-- The `timelineSteps` constant of MissionControl.tsx (5 stages). -/
def timelineSteps : List TimelineStep :=
  [⟨"scan", "Scanning Markets"⟩,
   ⟨"source", "Locating Sources"⟩,
   ⟨"extract", "Extracting Data"⟩,
   ⟨"calculate", "Calculating Edge"⟩,
   ⟨"rank", "Ranking Trades"⟩]

/-! ### Toast notifications (the `sonner` toast calls) -/

inductive ToastKind where
  | success | info | error
  deriving DecidableEq, Repr

structure Toast where
  kind : ToastKind
  message : String
  deriving DecidableEq, Repr

/-! ### Presentation formatter: `getEdgeColor` -/

/-- The three colour tiers returned by `getEdgeColor`:
`"text-emerald-400"` (strong positive), `"text-amber-400"` (marginal),
`"text-rose-400"` (negative). -/
inductive EdgeTier where
  | strongPositive | marginal | negative
  deriving DecidableEq, Repr

/-- `getEdgeColor` of MissionControl.tsx:
`if (edge >= 5) return emerald; if (edge >= 0) return amber; return rose;`. -/
def getEdgeColor (edge : ℚ) : EdgeTier :=
  if edge ≥ 5 then EdgeTier.strongPositive
  else if edge ≥ 0 then EdgeTier.marginal
  else EdgeTier.negative

/-! ### Fetch outcomes -/

/-- Outcome of a browser `fetch`: the promise rejects (network/transport
failure) or resolves to a response with an `ok` flag and a parsed body. -/
inductive FetchOutcome (α : Type) where
  | rejected : FetchOutcome α
  | response (ok : Bool) (body : α) : FetchOutcome α
  deriving DecidableEq, Repr

/-- A fetch outcome takes the `catch` path when the promise rejects or when
`!res.ok` makes the handler throw. -/
def FetchOutcome.failed : FetchOutcome α → Bool
  | .rejected => true
  | .response ok _ => !ok

/-! ### MarketMonitor (`fetchOpportunities`, the `/strategy1/scan` caller) -/

/-- The parsed body of `/strategy1/scan`: `{ trades: TradePlan[] }`. -/
structure ScanResponse where
  trades : List TradePlan
  deriving DecidableEq, Repr

/-- The `useState` cells of the `MarketMonitor` component. -/
structure MonitorState where
  opportunities : List TradePlan
  isLoading : Bool
  searchQuery : String
  deriving DecidableEq, Repr

/-- Initial `MarketMonitor` state: `useState([])`, `useState(false)`,
`useState("")`. -/
def initialMonitorState : MonitorState :=
  { opportunities := [], isLoading := false, searchQuery := "" }

/-- `fetchOpportunities` of MissionControl.tsx, as a function of the state
before the call and the fetch outcome.  `setIsLoading(true)` at entry,
on success `setOpportunities(data.trades || [])` and a success toast when
non-empty; on any caught failure only the error toast; `finally`
`setIsLoading(false)`. -/
def fetchOpportunities (s : MonitorState) (r : FetchOutcome ScanResponse) :
    MonitorState × List Toast :=
  let s1 := { s with isLoading := true }
  match r with
  | .rejected =>
      ({ s1 with isLoading := false }, [⟨ToastKind.error, "Strategy Engine Offline"⟩])
  | .response ok body =>
      if ok then
        let s2 := { s1 with opportunities := body.trades }
        let n := body.trades.length
        let toasts :=
          if n > 0 then [⟨ToastKind.success, s!"Found {n} opportunities"⟩] else []
        ({ s2 with isLoading := false }, toasts)
      else
        ({ s1 with isLoading := false }, [⟨ToastKind.error, "Strategy Engine Offline"⟩])

/-! ### AIVerificationPanel (`fetchTop3`, the `/strategy1/verify_top3` caller) -/

/-- The `useState` cells of the `AIVerificationPanel` component, plus a flag
recording whether the `setInterval` step timer is live. -/
structure PanelState where
  isLoading : Bool
  response : Option Strategy1VerifyResponse
  currentStep : Nat
  expandedId : Option String
  timerActive : Bool
  deriving DecidableEq, Repr

/-- Initial panel state: `useState(false)`, `useState(null)`, `useState(0)`,
`useState(null)`, no timer running. -/
def initialPanelState : PanelState :=
  { isLoading := false, response := none, currentStep := 0,
    expandedId := none, timerActive := false }

/-- The synchronous prefix of `fetchTop3`: `setIsLoading(true)`,
`setCurrentStep(0)`, `setResponse(null)`, `setExpandedId(null)`, and the
`setInterval` timer is started. -/
def fetchStart (s : PanelState) : PanelState :=
  { s with isLoading := true, currentStep := 0, response := none,
           expandedId := none, timerActive := true }

/-- One firing of the `setInterval` callback:
`setCurrentStep(prev => Math.min(prev + 1, timelineSteps.length - 1))`.
A cleared timer fires no more. -/
def tick (s : PanelState) : PanelState :=
  if s.timerActive then
    { s with currentStep := min (s.currentStep + 1) (timelineSteps.length - 1) }
  else s

/-- The toast chosen by the success branch of `fetchTop3`, from the count of
`EXECUTE` recommendations. -/
def successToast (data : Strategy1VerifyResponse) : Toast :=
  let execCount :=
    (data.top_opportunities.filter
      (fun t => t.recommendation == Recommendation.EXECUTE)).length
  if execCount > 0 then
    ⟨ToastKind.success, s!"Found {execCount} executable trades!"⟩
  else if data.top_opportunities.length > 0 then
    ⟨ToastKind.info, "Analysis complete - review recommendations"⟩
  else
    ⟨ToastKind.info, "No opportunities found right now"⟩

/-- The success branch of `fetchTop3`: `clearInterval`,
`setCurrentStep(timelineSteps.length)`, `setResponse(data)`, the toast,
auto-expansion of the first opportunity when the list is non-empty, and
`finally` `setIsLoading(false)`. -/
def successResolve (s : PanelState) (data : Strategy1VerifyResponse) :
    PanelState × List Toast :=
  let s1 := { s with timerActive := false, currentStep := timelineSteps.length,
                     response := some data }
  let s2 :=
    match data.top_opportunities with
    | [] => s1
    | v :: _ => { s1 with expandedId := some v.trade.market_id }
  ({ s2 with isLoading := false }, [successToast data])

/-- The `catch` branch of `fetchTop3`: `clearInterval`, the error toast, and
`finally` `setIsLoading(false)`.  No state cell other than `isLoading` is
written. -/
def failureResolve (s : PanelState) : PanelState × List Toast :=
  ({ s with timerActive := false, isLoading := false },
   [⟨ToastKind.error, "Verification failed"⟩])

/-- Resolution of the `fetchTop3` fetch: `if (!res.ok) throw` routes a
non-ok response to the same `catch` branch as a rejected promise. -/
def fetchResolve (s : PanelState) (r : FetchOutcome Strategy1VerifyResponse) :
    PanelState × List Toast :=
  match r with
  | .rejected => failureResolve s
  | .response ok data => if ok then successResolve s data else failureResolve s

/-- A complete `fetchTop3` call: the synchronous prefix, `k` firings of the
step timer while the request is in flight, then resolution. -/
def runFetchTop3 (s0 : PanelState) (k : Nat) (r : FetchOutcome Strategy1VerifyResponse) :
    PanelState × List Toast :=
  fetchResolve (tick^[k] (fetchStart s0)) r

/-- `toggleExpand` of MissionControl.tsx:
`setExpandedId(expandedId === marketId ? null : marketId)`. -/
def toggleExpand (expandedId : Option String) (marketId : String) : Option String :=
  if expandedId = some marketId then none else some marketId

/-! ### Rendering of the AIVerificationPanel body -/

/-- What the panel body renders, read off from the JSX: the timeline block
(`isLoading && ...`), the ranked result cards
(`response?.top_opportunities.map((verified, i) => ... rank={i + 1})`), the
empty-result block (`response && response.top_opportunities.length === 0`),
and the idle block (`!isLoading && !response`). -/
structure PanelRender where
  showsTimeline : Bool
  resultCards : List (Nat × Strategy1VerifiedTrade)
  showsEmptyResult : Bool
  showsIdle : Bool
  deriving DecidableEq, Repr

/-- The render function of the `AIVerificationPanel` body. -/
def renderPanel (s : PanelState) : PanelRender :=
  { showsTimeline := s.isLoading,
    resultCards :=
      match s.response with
      | none => []
      | some r => r.top_opportunities.enum.map (fun p => (p.1 + 1, p.2)),
    showsEmptyResult :=
      match s.response with
      | none => false
      | some r => r.top_opportunities.length == 0,
    showsIdle := !s.isLoading && s.response.isNone }

/-! ### Rendering of the audit section of `VerifiedTradeCard` -/

/-- `verified.thought_chain && verified.thought_chain.length > 0` as a
boolean (JavaScript truthiness of the optional array plus the length test). -/
def chainNonempty (v : Strategy1VerifiedTrade) : Bool :=
  match v.thought_chain with
  | some steps => decide (steps.length > 0)
  | none => false

/-- JavaScript truthiness of `verified.reasoning_audit` (absent or the empty
string are falsy). -/
def auditTruthy (v : Strategy1VerifiedTrade) : Bool :=
  match v.reasoning_audit with
  | some a => decide (a ≠ "")
  | none => false

/-- What the audit card of `VerifiedTradeCard` shows. -/
inductive AuditRender where
  | chainView (steps : List ThoughtStep)
  | fallbackView (text : String)
  | noAudit
  deriving DecidableEq, Repr

/-- The audit section of `VerifiedTradeCard`:
`(thought_chain && thought_chain.length > 0) || reasoning_audit ?` renders
the card, and inside it the same chain test chooses between the structured
chain and the fallback `reasoning_audit` text. -/
def renderAudit (v : Strategy1VerifiedTrade) : AuditRender :=
  if chainNonempty v || auditTruthy v then
    if chainNonempty v then AuditRender.chainView (v.thought_chain.getD [])
    else AuditRender.fallbackView (v.reasoning_audit.getD "")
  else AuditRender.noAudit

/-! ### MissionControl cross-panel selection state -/

/-- The two independently owned selection cells: `selectedOpportunity` in
`MissionControl` and `expandedId` in `AIVerificationPanel`. -/
structure AppSelectionState where
  selectedOpportunity : Option TradePlan
  expandedId : Option String
  deriving DecidableEq, Repr

/-- Clicking an `OpportunityCard` in the flat list:
`onSelectOpportunity={setSelectedOpportunity}`. -/
def selectOpportunity (s : AppSelectionState) (opp : TradePlan) : AppSelectionState :=
  { s with selectedOpportunity := some opp }

/-- Clicking a `VerifiedTradeCard`: `toggleExpand(marketId)` on the panel's
`expandedId` cell. -/
def toggleExpandApp (s : AppSelectionState) (marketId : String) : AppSelectionState :=
  { s with expandedId := toggleExpand s.expandedId marketId }

/-! ### Dashboard recent searches -/

/-- The `setRecentSearches` updater of `handleAnalyze` in Dashboard.tsx:
`prev.filter(t => t !== selectedTicker)` then
`[selectedTicker, ...filtered].slice(0, 5)`. -/
def addRecentSearch (prev : List String) (ticker : String) : List String :=
  (ticker :: prev.filter (fun t => t != ticker)).take 5

/-- The recent-searches list after a sequence of analysis triggers, starting
from the initial `useState<string[]>([])`. -/
def recentAfter (tickers : List String) : List String :=
  tickers.foldl addRecentSearch []

/-! ### Concrete sample data for closed statements -/

/-- A concrete `TradePlan` with the given market identifier. -/
def samplePlan (id : String) : TradePlan :=
  { market_id := id, event_ticker := "KXTEST", title := "Sample market", category := "Crypto",
    side := "YES", entry_price := 40, exit_price := 60, stop_loss := 30,
    potential_profit_cents := 20, potential_loss_cents := 10, risk_reward_ratio := 2,
    expiry_time := none, hours_to_expiry := 12, is_0dte := true, fee_per_contract := 2,
    net_profit_after_fees := 18, settlement_source := "exchange", implied_win_rate := 40,
    suggested_contracts := 10, max_risk_dollars := 1 }

/-- A concrete `Strategy1VerifiedTrade` with the given identifier and edge. -/
def sampleVerified (id : String) (e : ℚ) : Strategy1VerifiedTrade :=
  { trade := samplePlan id, source_name := "src", source_url := "http://example.com",
    source_data := "data", kalshi_rule := "rule", current_value := none, threshold := none,
    distance_to_threshold := none, ai_true_probability := 50, market_implied_probability := 40,
    edge := e, recommendation := Recommendation.WAIT, confidence := Confidence.MEDIUM,
    reasoning := "because", risk_factors := [], time_sensitivity := "hours",
    adjusted_contracts := 5, adjusted_risk_dollars := 1, thought_chain := none,
    reasoning_audit := none, web_searches_performed := none }

/-- A concrete `Strategy1VerifyResponse` carrying the given trades. -/
def sampleResponse (trades : List Strategy1VerifiedTrade) : Strategy1VerifyResponse :=
  ⟨"2026-01-01T00:00:00Z", 100, trades, "summary"⟩

/-- A panel state displaying an earlier successful verification result. -/
def priorSuccessState : PanelState :=
  { isLoading := false, response := some (sampleResponse [sampleVerified "KXA" 8]),
    currentStep := 5, expandedId := some "KXA", timerActive := false }

/-- A concrete reasoning step. -/
def sampleStep : ThoughtStep :=
  ⟨1, "checking the settlement source", "2026-01-01T00:00:00Z", some "btc price now"⟩

/-- A verified trade carrying an empty structured chain together with a
fallback audit string. -/
def emptyChainTrade : Strategy1VerifiedTrade :=
  { sampleVerified "KXE" 2 with
    thought_chain := some [], reasoning_audit := some "RAW AUDIT LOG" }

/-- A verified trade carrying a non-empty structured chain together with a
fallback audit string. -/
def chainTrade : Strategy1VerifiedTrade :=
  { sampleVerified "KXCHAIN" 2 with
    thought_chain := some [sampleStep], reasoning_audit := some "RAW AUDIT FALLBACK" }

/-! ### Helper lemmas -/

/-- The panel state after the synchronous prefix of `fetchTop3` and `k`
timer firings: the step counter reads `min k 4` and nothing else moves. -/
lemma tickRun (s0 : PanelState) (k : Nat) :
    tick^[k] (fetchStart s0) =
      { isLoading := true, response := none, currentStep := min k 4,
        expandedId := none, timerActive := true } := by
  induction k with
  | zero => simp [fetchStart]
  | succ k ih =>
      rw [Function.iterate_succ_apply', ih]
      simp only [tick, timelineSteps]
      norm_num
      omega

/-- The panel state after a successful `fetchTop3` with a non-empty
opportunity list. -/
lemma runFetchTop3_success_cons (s0 : PanelState) (k : Nat) (st sm : String) (n : Nat)
    (v : Strategy1VerifiedTrade) (vs : List Strategy1VerifiedTrade) :
    (runFetchTop3 s0 k (FetchOutcome.response true ⟨st, n, v :: vs, sm⟩)).1 =
      { isLoading := false, response := some ⟨st, n, v :: vs, sm⟩,
        currentStep := timelineSteps.length, expandedId := some v.trade.market_id,
        timerActive := false } := by
  simp [runFetchTop3, fetchResolve, successResolve, tickRun]

/-- The panel state after a successful `fetchTop3` with an empty
opportunity list. -/
lemma runFetchTop3_success_nil (s0 : PanelState) (k : Nat) (st sm : String) (n : Nat) :
    (runFetchTop3 s0 k (FetchOutcome.response true ⟨st, n, [], sm⟩)).1 =
      { isLoading := false, response := some ⟨st, n, [], sm⟩,
        currentStep := timelineSteps.length, expandedId := none,
        timerActive := false } := by
  simp [runFetchTop3, fetchResolve, successResolve, tickRun]

/-- A successful `fetchTop3` stores the whole response body. -/
lemma runFetchTop3_success_response (s0 : PanelState) (k : Nat)
    (d : Strategy1VerifyResponse) :
    (runFetchTop3 s0 k (FetchOutcome.response true d)).1.response = some d := by
  rcases d with ⟨st, n, tops, sm⟩
  cases tops with
  | nil => rw [runFetchTop3_success_nil]
  | cons v vs => rw [runFetchTop3_success_cons]

/-- Folding flat-list selections never writes the expansion cell. -/
lemma foldl_select_expandedId (s : AppSelectionState) (opps : List TradePlan) :
    (opps.foldl selectOpportunity s).expandedId = s.expandedId := by
  induction opps generalizing s with
  | nil => rfl
  | cons o os ih => rw [List.foldl_cons, ih]; rfl

/-- Folding expansion toggles never writes the flat-list selection cell. -/
lemma foldl_toggle_selected (s : AppSelectionState) (ms : List String) :
    (ms.foldl toggleExpandApp s).selectedOpportunity = s.selectedOpportunity := by
  induction ms generalizing s with
  | nil => rfl
  | cons m ms ih => rw [List.foldl_cons, ih]; rfl

/-- One analysis trigger keeps the recent-searches list duplicate-free. -/
lemma addRecentSearch_nodup (prev : List String) (t : String) (h : prev.Nodup) :
    (addRecentSearch prev t).Nodup := by
  unfold addRecentSearch
  refine List.Nodup.sublist (List.take_sublist _ _) ?_
  refine List.nodup_cons.mpr ⟨fun hmem => ?_, h.filter _⟩
  rcases List.mem_filter.mp hmem with ⟨-, hb⟩
  simp at hb

/-- The recent-searches list reachable from any duplicate-free start stays
duplicate-free. -/
lemma foldl_recent_nodup (ts : List String) :
    ∀ acc : List String, acc.Nodup → (ts.foldl addRecentSearch acc).Nodup := by
  induction ts with
  | nil => intro acc h; simpa using h
  | cons t ts ih => intro acc h; simpa using ih _ (addRecentSearch_nodup _ _ h)

/-! ### Claim theorems -/

/-- C1 (counterexample): the claim that a previously displayed successful
verification result remains in place after a failed `fetchTop3` is false.
`fetchTop3` executes `setResponse(null)` (and `setExpandedId(null)`) at
request start, so at a concrete prior state that displays a successful
result, a rejected fetch leaves the panel with no result at all. -/
theorem fetchTop3_failure_clears_prior_result :
    priorSuccessState.response = some (sampleResponse [sampleVerified "KXA" 8]) ∧
    (runFetchTop3 priorSuccessState 2 FetchOutcome.rejected).1.response = none ∧
    (runFetchTop3 priorSuccessState 2 FetchOutcome.rejected).1.expandedId = none := by
  decide

/-- C1 (amended): for every failed `fetchTop3` request (rejected promise or
non-ok response), the step timer is cancelled, no partial result is kept,
the error toast is the only notification, and no exception escapes (the
resolution is a total function); however the displayed result does not
survive: it was cleared at request start, so the panel ends with no
response and no expansion. -/
theorem fetchTop3_failure_behavior (s0 : PanelState) (k : Nat)
    (r : FetchOutcome Strategy1VerifyResponse) (h : r.failed = true) :
    (runFetchTop3 s0 k r).1.response = none ∧
    (runFetchTop3 s0 k r).1.expandedId = none ∧
    (runFetchTop3 s0 k r).1.timerActive = false ∧
    (runFetchTop3 s0 k r).1.isLoading = false ∧
    (runFetchTop3 s0 k r).2 = [⟨ToastKind.error, "Verification failed"⟩] := by
  have ht := tickRun s0 k
  cases r with
  | rejected => simp [runFetchTop3, fetchResolve, failureResolve, ht]
  | response ok data =>
      cases ok with
      | false => simp [runFetchTop3, fetchResolve, failureResolve, ht]
      | true => simp [FetchOutcome.failed] at h

/-- C1 (witness): the amended failure behaviour evaluated at a concrete
run: the initial panel state, three timer firings, a rejected fetch. -/
theorem fetchTop3_failure_behavior_witness :
    (FetchOutcome.rejected : FetchOutcome Strategy1VerifyResponse).failed = true ∧
    ((runFetchTop3 initialPanelState 3 FetchOutcome.rejected).1.response = none ∧
     (runFetchTop3 initialPanelState 3 FetchOutcome.rejected).1.expandedId = none ∧
     (runFetchTop3 initialPanelState 3 FetchOutcome.rejected).1.timerActive = false ∧
     (runFetchTop3 initialPanelState 3 FetchOutcome.rejected).1.isLoading = false ∧
     (runFetchTop3 initialPanelState 3 FetchOutcome.rejected).2
        = [⟨ToastKind.error, "Verification failed"⟩]) :=
  ⟨by decide, fetchTop3_failure_behavior initialPanelState 3 FetchOutcome.rejected (by decide)⟩

/-- C2: during a `fetchTop3` run the step counter starts at 0; after any
number of timer firings it stays strictly below the number of timeline
stages (5) and never decreases from one firing to the next; successful
resolution forces it to the stage count, while failed resolution leaves it
unchanged (so only success reaches the stage count). -/
theorem progress_step_bounds (s0 : PanelState) (k : Nat) (d : Strategy1VerifyResponse) :
    (fetchStart s0).currentStep = 0 ∧
    (tick^[k] (fetchStart s0)).currentStep < timelineSteps.length ∧
    (tick^[k] (fetchStart s0)).currentStep ≤ (tick^[k + 1] (fetchStart s0)).currentStep ∧
    (runFetchTop3 s0 k (FetchOutcome.response true d)).1.currentStep = timelineSteps.length ∧
    (runFetchTop3 s0 k FetchOutcome.rejected).1.currentStep
      = (tick^[k] (fetchStart s0)).currentStep := by
  refine ⟨rfl, ?_, ?_, ?_, ?_⟩
  · rw [tickRun]; simp [timelineSteps]
  · rw [tickRun, tickRun]; simp
  · rcases d with ⟨st, n, tops, sm⟩
    cases tops with
    | nil => rw [runFetchTop3_success_nil]
    | cons v vs => rw [runFetchTop3_success_cons]
  · simp [runFetchTop3, fetchResolve, failureResolve]

/-- C3: a successful `fetchTop3` with a non-empty list auto-expands exactly
the first element's market identifier; with an empty list nothing is
expanded and the panel shows the empty-result block, which is distinct from
the pre-run idle block (the idle block needs `response` to be absent). -/
theorem fetchTop3_success_expansion (s0 : PanelState) (k : Nat) (st sm : String) (n : Nat)
    (v : Strategy1VerifiedTrade) (vs : List Strategy1VerifiedTrade) :
    (runFetchTop3 s0 k (FetchOutcome.response true ⟨st, n, v :: vs, sm⟩)).1.expandedId
      = some v.trade.market_id ∧
    (runFetchTop3 s0 k (FetchOutcome.response true ⟨st, n, [], sm⟩)).1.expandedId = none ∧
    (renderPanel (runFetchTop3 s0 k
        (FetchOutcome.response true ⟨st, n, [], sm⟩)).1).showsEmptyResult = true ∧
    (renderPanel (runFetchTop3 s0 k
        (FetchOutcome.response true ⟨st, n, [], sm⟩)).1).showsIdle = false ∧
    (renderPanel initialPanelState).showsIdle = true ∧
    (renderPanel initialPanelState).showsEmptyResult = false := by
  refine ⟨?_, ?_, ?_, ?_, by decide, by decide⟩
  · rw [runFetchTop3_success_cons]
  · rw [runFetchTop3_success_nil]
  · rw [runFetchTop3_success_nil]; rfl
  · rw [runFetchTop3_success_nil]; rfl

/-- C4: in the rendered verified list the card at position `i` carries rank
`i + 1` and wraps exactly `topOpportunities[i]`; stripping the ranks
returns the response array itself, so the client renders the service order
with no re-sorting. -/
theorem rank_equals_position (s0 : PanelState) (k : Nat)
    (d : Strategy1VerifyResponse) (i : Nat) :
    (renderPanel (runFetchTop3 s0 k (FetchOutcome.response true d)).1).resultCards[i]?
      = (d.top_opportunities[i]?).map (fun v => (i + 1, v)) ∧
    (renderPanel (runFetchTop3 s0 k
        (FetchOutcome.response true d)).1).resultCards.map Prod.snd
      = d.top_opportunities := by
  have hresp := runFetchTop3_success_response s0 k d
  have hcards : (renderPanel (runFetchTop3 s0 k
      (FetchOutcome.response true d)).1).resultCards
      = d.top_opportunities.enum.map (fun p => (p.1 + 1, p.2)) := by
    simp [renderPanel, hresp]
  constructor
  · rw [hcards]
    cases hi : d.top_opportunities[i]? <;>
      simp [List.getElem?_map, List.getElem?_enum, hi]
  · rw [hcards, List.map_map]
    have hc : (Prod.snd ∘ fun p : Nat × Strategy1VerifiedTrade => (p.1 + 1, p.2))
        = Prod.snd := funext fun p => rfl
    rw [hc, List.enum_map_snd]

/-- C5 (counterexample): double-toggling is not collapsing from every
starting state.  Starting from the state in which `"KXBTC-100"` is already
expanded, toggling it twice first collapses and then re-expands it, so the
final state still has `"KXBTC-100"` expanded, not collapsed. -/
theorem toggleExpand_double_from_expanded :
    toggleExpand (toggleExpand (some "KXBTC-100") "KXBTC-100") "KXBTC-100"
      = some "KXBTC-100" := by
  decide

/-- C5 (amended): toggling an expanded identifier collapses it; toggling an
identifier twice from any state in which it is not expanded returns to the
collapsed state for it; and the expansion cell is a singleton, never a
stack (after a toggle of `m` it is either empty or exactly `m`).  Only the
double-toggle law restricted to an already-expanded start fails. -/
theorem toggleExpand_laws (s : Option String) (m : String) (h : s ≠ some m) :
    toggleExpand (some m) m = none ∧
    toggleExpand (toggleExpand s m) m = none ∧
    (toggleExpand s m = none ∨ toggleExpand s m = some m) := by
  refine ⟨by simp [toggleExpand], by simp [toggleExpand, h], ?_⟩
  rcases eq_or_ne s (some m) with h' | h' <;> simp [toggleExpand, h']

/-- C5 (witness): the amended toggle laws evaluated at the collapsed state
and the identifier `"KXETH-42"`. -/
theorem toggleExpand_laws_witness :
    (none : Option String) ≠ some "KXETH-42" ∧
    (toggleExpand (some "KXETH-42") "KXETH-42" = none ∧
     toggleExpand (toggleExpand none "KXETH-42") "KXETH-42" = none ∧
     (toggleExpand none "KXETH-42" = none ∨ toggleExpand none "KXETH-42" = some "KXETH-42")) :=
  ⟨by decide, toggleExpand_laws none "KXETH-42" (by decide)⟩

/-- C6: `getEdgeColor` is a total function on rational edges and maps
`edge ≥ 5` to the strong-positive tier, `0 ≤ edge < 5` (including the
boundary 0) to the marginal tier, and `edge < 0` to the negative tier. -/
theorem getEdgeColor_tiers (edge : ℚ) :
    (5 ≤ edge → getEdgeColor edge = EdgeTier.strongPositive) ∧
    (0 ≤ edge → edge < 5 → getEdgeColor edge = EdgeTier.marginal) ∧
    (edge < 0 → getEdgeColor edge = EdgeTier.negative) := by
  unfold getEdgeColor
  refine ⟨fun h => ?_, fun h0 h5 => ?_, fun h => ?_⟩
  · rw [if_pos h]
  · rw [if_neg (by linarith), if_pos h0]
  · rw [if_neg (by linarith), if_neg (by linarith)]

/-- C6 (witness): the tier function evaluated at 7 (strong positive), the
boundary 0 (marginal), and -2 (negative). -/
theorem getEdgeColor_tiers_witness :
    ((5 : ℚ) ≤ 7 ∧ getEdgeColor 7 = EdgeTier.strongPositive) ∧
    ((0 : ℚ) ≤ 0 ∧ (0 : ℚ) < 5 ∧ getEdgeColor 0 = EdgeTier.marginal) ∧
    ((-2 : ℚ) < 0 ∧ getEdgeColor (-2) = EdgeTier.negative) :=
  ⟨⟨by norm_num, (getEdgeColor_tiers 7).1 (by norm_num)⟩,
   ⟨le_refl 0, by norm_num, (getEdgeColor_tiers 0).2.1 (le_refl 0) (by norm_num)⟩,
   ⟨by norm_num, (getEdgeColor_tiers (-2)).2.2 (by norm_num)⟩⟩

/-- C7: a failed `/strategy1/scan` call (rejected promise or non-ok
response such as HTTP 500) leaves the opportunity list exactly as it was
before the call (empty when scan was never run before), emits only the
transient error toast, and no exception escapes (the handler is a total
function ending with `isLoading = false`). -/
theorem fetchOpportunities_failure_preserves (s : MonitorState) (b : ScanResponse) :
    (fetchOpportunities s FetchOutcome.rejected).1.opportunities = s.opportunities ∧
    (fetchOpportunities s (FetchOutcome.response false b)).1.opportunities
      = s.opportunities ∧
    (fetchOpportunities s FetchOutcome.rejected).2
      = [⟨ToastKind.error, "Strategy Engine Offline"⟩] ∧
    (fetchOpportunities s (FetchOutcome.response false b)).2
      = [⟨ToastKind.error, "Strategy Engine Offline"⟩] ∧
    (fetchOpportunities s FetchOutcome.rejected).1.isLoading = false ∧
    (fetchOpportunities initialMonitorState FetchOutcome.rejected).1.opportunities
      = [] := by
  refine ⟨rfl, rfl, rfl, rfl, rfl, rfl⟩

/-- C8: clicking a flat-list opportunity writes only the list-selection
cell and never the verified-list expansion cell; toggling expansion writes
only the expansion cell and never the list selection; the decoupling holds
over arbitrary sequences of either action. -/
theorem selection_expansion_decoupled (s : AppSelectionState) (opp : TradePlan)
    (m : String) (opps : List TradePlan) (ms : List String) :
    (selectOpportunity s opp).expandedId = s.expandedId ∧
    (selectOpportunity s opp).selectedOpportunity = some opp ∧
    (toggleExpandApp s m).selectedOpportunity = s.selectedOpportunity ∧
    (opps.foldl selectOpportunity s).expandedId = s.expandedId ∧
    (ms.foldl toggleExpandApp s).selectedOpportunity = s.selectedOpportunity :=
  ⟨rfl, rfl, rfl, foldl_select_expandedId s opps, foldl_toggle_selected s ms⟩

/-- C9 (counterexample): a verified trade that carries both a structured
thought chain and a fallback audit string does not always render the chain:
when the chain is the empty list, the `length > 0` test fails and the audit
card renders the fallback string instead. -/
theorem renderAudit_empty_chain_fallback :
    emptyChainTrade.thought_chain = some [] ∧
    emptyChainTrade.reasoning_audit = some "RAW AUDIT LOG" ∧
    renderAudit emptyChainTrade = AuditRender.fallbackView "RAW AUDIT LOG" := by
  decide

/-- C9 (amended): whenever a verified trade carries a non-empty structured
thought chain together with a fallback audit string, the audit section
renders the chain and not the fallback string; an empty chain is treated as
absent and falls back to the audit string. -/
theorem renderAudit_chain_priority (v : Strategy1VerifiedTrade) (c : ThoughtStep)
    (cs : List ThoughtStep) (a : String) (hc : v.thought_chain = some (c :: cs))
    (_ha : v.reasoning_audit = some a) :
    renderAudit v = AuditRender.chainView (c :: cs) := by
  have h1 : chainNonempty v = true := by simp [chainNonempty, hc]
  simp [renderAudit, h1, hc]

/-- C9 (witness): the chain-priority theorem evaluated at a concrete trade
carrying a one-step chain and a fallback string. -/
theorem renderAudit_chain_priority_witness :
    chainTrade.thought_chain = some [sampleStep] ∧
    chainTrade.reasoning_audit = some "RAW AUDIT FALLBACK" ∧
    renderAudit chainTrade = AuditRender.chainView [sampleStep] :=
  ⟨rfl, rfl, renderAudit_chain_priority chainTrade sampleStep [] "RAW AUDIT FALLBACK" rfl rfl⟩

/-- C10: after every analysis trigger (any history of earlier triggers
followed by analyzing `t`), the recent-searches list has no duplicate
tickers, holds at most 5 entries, and starts with the ticker just
analyzed. -/
theorem recentSearches_invariant (ts : List String) (t : String) :
    (recentAfter (ts ++ [t])).Nodup ∧
    (recentAfter (ts ++ [t])).length ≤ 5 ∧
    (recentAfter (ts ++ [t])).head? = some t := by
  have hstep : recentAfter (ts ++ [t]) = addRecentSearch (recentAfter ts) t := by
    simp [recentAfter, List.foldl_append]
  refine ⟨?_, ?_, ?_⟩
  · rw [hstep]
    exact addRecentSearch_nodup _ _ (foldl_recent_nodup ts [] List.nodup_nil)
  · rw [hstep]; unfold addRecentSearch
    exact List.length_take_le 5 _
  · rw [hstep]; rfl

end TrademindAI
